import Mathlib

/-!
Shallow embedding of the trigger-detection and scoring engine of the
`hallucination-detector` repository (the Stop-hook script
`scripts/hallucination-framing-session-start.cjs`, second document: the
stop-hook audit engine, whose exported core is `findTriggerMatches`,
`scoreSentence`, `aggregateWeightedScore`, `loadWeights`, `scoreText`).

Text is modelled as `List Char`.  JavaScript regular expressions are
modelled by a small backtracking-matcher combinator library (`Matcher`):
a matcher returns the list of candidate consumed lengths in the engine's
backtracking priority order, so `List.head?` is exactly the match the
JavaScript engine commits to at a given start position, and scanning
start positions left to right gives `String.prototype.match` semantics.

Character-set notes (the only deliberate narrowings, none of which the
theorems' inputs exercise): JS `\s` is modelled as the six ASCII
whitespace characters, JS `String.prototype.toLowerCase` as ASCII
lowering (`Char.toLower`), both exact on ASCII text; JS numbers are
modelled as exact rationals (`ℚ`), which agrees with IEEE doubles on all
the small dyadic/decimal weights used here.
-/

/-- TriggerKind: the closed set of detection categories of the engine
(the five keys of `DEFAULT_WEIGHTS`; `fabricated_source` is reserved and
never produced by any matcher). -/
inductive TriggerKind where
  | speculation_language
  | causality_language
  | pseudo_quantification
  | completeness_claim
  | fabricated_source
deriving DecidableEq, Repr

/-- TMatch: one flagged occurrence, as pushed by `findTriggerMatches`:
`{ kind, evidence }`. -/
structure TMatch where
  kind : TriggerKind
  evidence : List Char
deriving DecidableEq, Repr

/-- Word character of JS regex `\w` and of `\b` boundaries: ASCII
letters, digits, underscore. -/
def isWordChar (c : Char) : Bool :=
  c.isAlpha || c.isDigit || c == '_'

/-- Whitespace of JS regex `\s` (ASCII part: space, tab, newline,
carriage return, vertical tab, form feed). -/
def jsWS (c : Char) : Bool :=
  c == ' ' || c == '\t' || c == '\n' || c == '\r' ||
    c == Char.ofNat 11 || c == Char.ofNat 12

/-- Quote character class of the evidence regexes: double or single quote. -/
def isQuoteChar (c : Char) : Bool :=
  c == Char.ofNat 34 || c == Char.ofNat 39

/-- The backtick character (inline-code delimiter). -/
def btC : Char := Char.ofNat 96

/-- ASCII lowering, modelling `String.prototype.toLowerCase` (and the
effect of a regex `i` flag when the pattern is run on lowered text). -/
def lowerCL (s : List Char) : List Char := s.map Char.toLower

/-- Matcher: a regex fragment.  Given the character just before the
current position (`none` at string start) and the remaining input, it
returns all candidate consumed lengths in backtracking priority order. -/
def Matcher : Type := Option Char → List Char → List Nat

/-- Empty-pattern matcher (consumes nothing, always succeeds). -/
def mEps : Matcher := fun _ _ => [0]

/-- Literal-string matcher (case handled by the caller: patterns with the
`i` flag are run on lowered text with lowered literals). -/
def mLit (cs : List Char) : Matcher :=
  fun _ s => if cs.isPrefixOf s then [cs.length] else []

/-- Length of the maximal prefix run of characters satisfying `p`. -/
def runLen (p : Char → Bool) : List Char → Nat
  | [] => 0
  | c :: rest => if p c then runLen p rest + 1 else 0

/-- Greedy character-class repetition `[p]{lo,hi}` (`hi = none` means
unbounded), candidates from longest to shortest as a greedy JS
quantifier backtracks. -/
def mCls (p : Char → Bool) (lo : Nat) (hi : Option Nat) : Matcher :=
  fun _ s =>
    let top := match hi with
      | none => runLen p s
      | some h => min (runLen p s) h
    ((List.range (top + 1)).reverse).filter (fun n => lo ≤ n)

/-- The character just before the position reached after consuming `n`
characters of `s`, when the character before `s` itself is `prev`. -/
def prevAfter (prev : Option Char) (s : List Char) (n : Nat) : Option Char :=
  if n = 0 then prev else s[n - 1]?

/-- Sequencing of matchers, preserving backtracking priority order
(lexicographic: all of `b`'s candidates for `a`'s first candidate come
first, exactly the JS engine's exploration order). -/
def mSeq (a b : Matcher) : Matcher :=
  fun prev s =>
    (a prev s).flatMap fun n =>
      (b (prevAfter prev s n) (s.drop n)).map fun m => n + m

/-- Sequence of a list of matchers. -/
def mSeqs (ms : List Matcher) : Matcher := ms.foldr mSeq mEps

/-- Ordered alternation `(?:A|B|...)`: alternatives tried left to right. -/
def mAlt (ms : List Matcher) : Matcher :=
  fun prev s => ms.flatMap fun m => m prev s

/-- Greedy optional group `(?:A)?`: present first, then absent. -/
def mOpt (a : Matcher) : Matcher :=
  fun prev s => a prev s ++ [0]

/-- Word-ness of an optional character (out of bounds counts non-word). -/
def isWordOpt : Option Char → Bool
  | none => false
  | some c => isWordChar c

/-- Word-boundary assertion `\b`: zero-width, succeeds iff exactly one of
the two adjacent characters is a word character. -/
def mWB : Matcher :=
  fun prev s => if isWordOpt prev != isWordOpt s.head? then [0] else []

/-- Alternation of literal strings. -/
def mLits (ss : List (List Char)) : Matcher := mAlt (ss.map mLit)

/-- Literal word with an optional trailing `s` (JS `words?`). -/
def mLitOptS (cs : List Char) : Matcher := mSeqs [mLit cs, mOpt (mLit ([ 's' ]))]

/-- One-or-more whitespace `\s+`. -/
def wsPlus : Matcher := mCls jsWS 1 none

/-- Zero-or-more whitespace `\s*`. -/
def wsStar : Matcher := mCls jsWS 0 none

/-- First match of `m` at or after the current position: returns (start
index, consumed length) of the leftmost position where `m` succeeds,
taking `m`'s highest-priority candidate there — `String.prototype.match`
(no `g` flag) semantics. -/
def reFirstAux (m : Matcher) (i : Nat) (prev : Option Char) (s : List Char) :
    Option (Nat × Nat) :=
  match (m prev s).head? with
  | some n => some (i, n)
  | none =>
    match s with
    | [] => none
    | c :: rest => reFirstAux m (i + 1) (some c) rest

/-- First match of `m` in `s` (JS `s.match(re)`), as (index, length). -/
def reFirst (m : Matcher) (s : List Char) : Option (Nat × Nat) :=
  reFirstAux m 0 none s

/-- Whether `m` matches anywhere in `s` (JS `re.test(s)`). -/
def reTest (m : Matcher) (s : List Char) : Bool :=
  (reFirst m s).isSome

/-- Index of the first occurrence of `needle` at or after position 0 in
the remaining list, offset by `i` (helper for `idxOf`). -/
def idxOfAux (needle : List Char) (i : Nat) (s : List Char) : Option Nat :=
  if needle.isPrefixOf s then some i
  else
    match s with
    | [] => none
    | _ :: rest => idxOfAux needle (i + 1) rest

/-- JS `hay.indexOf(needle)` (as an `Option` instead of `-1`). -/
def idxOf (needle hay : List Char) : Option Nat := idxOfAux needle 0 hay

/-- JS `hay.indexOf(needle, start)`. -/
def idxOfFrom (needle hay : List Char) (start : Nat) : Option Nat :=
  (idxOf needle (hay.drop start)).map (· + start)

/-- JS `hay.includes(needle)`. -/
def containsSub (needle hay : List Char) : Bool := (idxOf needle hay).isSome

/-- JS `t.slice(a, b)` for `0 ≤ a ≤ b` (callers pre-clamp as the source
does). -/
def sliceCL (t : List Char) (a b : Nat) : List Char := (t.drop a).take (b - a)

/-- JS `t.lastIndexOf(c, i)`: the last index `j ≤ i` with `t[j] = c`. -/
def lastIdxLE (c : Char) (t : List Char) (i : Nat) : Option Nat :=
  let pre := t.take (i + 1)
  (pre.reverse.findIdx? (fun x => x == c)).map (fun k => pre.length - 1 - k)

/-- JS `t.indexOf(c, i)`: the first index `j ≥ i` with `t[j] = c`. -/
def idxFromGE (c : Char) (t : List Char) (i : Nat) : Option Nat :=
  ((t.drop i).findIdx? (fun x => x == c)).map (· + i)

/-- The non-overlapping occurrences of `needle` in `hay` from position
`start`, leftmost first, each search resuming at `idx + needle.length` —
the scan order of the `while` loop over `lower.indexOf(phrase,
searchFrom)` in the causality block.  `fuel` bounds the recursion
(callers pass `hay.length + 1`, always enough for a non-empty needle). -/
def occList (needle hay : List Char) (start fuel : Nat) : List Nat :=
  match fuel with
  | 0 => []
  | fuel + 1 =>
    match idxOfFrom needle hay start with
    | none => []
    | some i => i :: occList needle hay (i + needle.length) fuel

/-- Question probe `isIndexWithinQuestion(text, idx)`: the enclosing
"sentence" (between the nearest `\n . ! ?` before `idx` and the nearest
one at or after `idx`) contains a `?`. -/
def isIndexWithinQuestion (text : List Char) (idx : Nat) : Bool :=
  let befores := [lastIdxLE '\n' text idx, lastIdxLE '.' text idx,
    lastIdxLE '!' text idx, lastIdxLE '?' text idx]
  let start := match (befores.filterMap id).max? with
    | none => 0
    | some j => j + 1
  let afters := [idxFromGE '\n' text idx, idxFromGE '.' text idx,
    idxFromGE '!' text idx, idxFromGE '?' text idx]
  let stop := match (afters.filterMap id).min? with
    | none => text.length
    | some n => n + 1
  (sliceCL text start stop).contains '?'

/-- EVIDENCE_MARKERS[0]: quoted text of at least 3 characters,
`["'][^"']{3,}["']` (case-blind by construction). -/
def quotedRe : Matcher :=
  mSeqs [mCls isQuoteChar 1 (some 1), mCls (fun c => !isQuoteChar c) 3 none,
    mCls isQuoteChar 1 (some 1)]

/-- EVIDENCE_MARKERS[1]: error codes, `\b(?:error|exit)\s*(?:code)?\s*\d+`
with the `i` flag (run on lowered text). -/
def errCodeRe : Matcher :=
  mSeqs [mWB, mLits [("error".data), ("exit".data)], wsStar,
    mOpt (mLit ("code".data)), wsStar, mCls Char.isDigit 1 none]

/-- EVIDENCE_MARKERS[2]: linter codes, `\b[A-Z]\d{3,4}\b`
(case-sensitive, run on the unlowered window). -/
def linterRe : Matcher :=
  mSeqs [mWB, mCls Char.isUpper 1 (some 1), mCls Char.isDigit 3 (some 4), mWB]

/-- EVIDENCE_MARKERS[3]: observational verbs,
`\b(?:returned|reported|showed|output|printed|logged|threw|raised|exited|failed)\b`
with the `i` flag. -/
def obsVerbRe : Matcher :=
  mSeqs [mWB,
    mLits [("returned".data), ("reported".data), ("showed".data),
      ("output".data), ("printed".data), ("logged".data), ("threw".data),
      ("raised".data), ("exited".data), ("failed".data)], mWB]

/-- EVIDENCE_MARKERS[4]: diagnostic stream nouns,
`\b(?:stdout|stderr|traceback|exception|stack\s*trace)\b` with the `i`
flag. -/
def streamRe : Matcher :=
  mSeqs [mWB,
    mAlt [mLit ("stdout".data), mLit ("stderr".data), mLit ("traceback".data),
      mLit ("exception".data),
      mSeqs [mLit ("stack".data), wsStar, mLit ("trace".data)]], mWB]

/-- EVIDENCE_MARKERS[5]: file:line references, `[\w/]+\.\w{1,6}:\d+`. -/
def fileLineRe : Matcher :=
  mSeqs [mCls (fun c => isWordChar c || c == '/') 1 none, mLit (".".data),
    mCls isWordChar 1 (some 6), mLit (":".data), mCls Char.isDigit 1 none]

/-- BACKTICK_RE: an inline code span with non-empty content on one line,
tested against the raw (pre-strip) text. -/
def backtickRe : Matcher :=
  mSeqs [mLit [btC], mCls (fun c => !(c == btC) && !(c == '\n')) 1 none,
    mLit [btC]]

/-- Whether any of the six EVIDENCE_MARKERS tests the window positive, in
array order (markers 1, 3 and 4 carry the `i` flag and run lowered). -/
def evidenceMarkersTest (window : List Char) : Bool :=
  reTest quotedRe window || reTest errCodeRe (lowerCL window) ||
    reTest linterRe window || reTest obsVerbRe (lowerCL window) ||
    reTest streamRe (lowerCL window) || reTest fileLineRe window

/-- Evidence probe `hasEvidenceNearby(text, idx, rawText)` with the
default 150-character window: any evidence marker in the stripped-text
window, or an inline-code span in the raw-text window at the same
offsets. -/
def hasEvidenceNearby (text : List Char) (idx : Nat) (rawText : List Char) :
    Bool :=
  let window := sliceCL text (idx - 150) (min text.length (idx + 150))
  if evidenceMarkersTest window then true
  else
    let rawWindow := sliceCL rawText (idx - 150) (min rawText.length (idx + 150))
    reTest backtickRe rawWindow

/-- One list-item line prefix, `^\s*(?:\d+[.)]\s|\*\s|-\s)` (the body of
`listItemRe`; the `^` anchoring to line starts is handled by the
counting scan). -/
def listItemRe : Matcher :=
  mSeqs [wsStar,
    mAlt [mSeqs [mCls Char.isDigit 1 none,
        mCls (fun c => c == '.' || c == ')') 1 (some 1), mCls jsWS 1 (some 1)],
      mSeqs [mLit ("*".data), mCls jsWS 1 (some 1)],
      mSeqs [mLit ("-".data), mCls jsWS 1 (some 1)]]]

/-- Count of non-overlapping matches of `m` anchored at line starts
(JS `string.match(/re/gm)` with a `^`-anchored pattern): scan left to
right, attempt only at position 0 or just after a newline, resume after
each match. -/
def countLineMatchesAux (m : Matcher) :
    Nat → Bool → Option Char → List Char → Nat
  | 0, _, _, _ => 0
  | fuel + 1, atLS, prev, s =>
    match (if atLS then (m prev s).head? else none) with
    | some n =>
      let step := max n 1
      let last := (s.take step).getLast?
      1 + countLineMatchesAux m fuel (last == some '\n') last (s.drop step)
    | none =>
      match s with
      | [] => 0
      | c :: rest => countLineMatchesAux m fuel (c == '\n') (some c) rest

/-- Enumeration probe `hasEnumerationNearby(text, idx)`: the preceding
200 characters contain at least two list-item lines. -/
def hasEnumerationNearby (text : List Char) (idx : Nat) : Bool :=
  let preceding := sliceCL text (idx - 200) idx
  decide (2 ≤ countLineMatchesAux listItemRe (preceding.length + 1) true none preceding)

/-- JS trim: strip leading and trailing whitespace. -/
def jsTrim (s : List Char) : List Char :=
  ((s.dropWhile jsWS).reverse.dropWhile jsWS).reverse

/-- normalizeForScan: `text.replace(/\r\n/g, '\n')`. -/
def normalizeForScan : List Char → List Char
  | [] => []
  | '\r' :: '\n' :: rest => '\n' :: normalizeForScan rest
  | c :: rest => c :: normalizeForScan rest

/-- Removal of fenced code blocks, `out.replace(/```[\s\S]*?```/g, '')`:
each match is the first unconsumed triple backtick together with the
nearest closing triple backtick after it (lazy middle); an opener with
no closer matches nothing. -/
def stripFenced (t : List Char) (fuel : Nat) : List Char :=
  match fuel with
  | 0 => t
  | fuel + 1 =>
    match idxOf [btC, btC, btC] t with
    | none => t
    | some i =>
      match idxOfFrom [btC, btC, btC] t (i + 3) with
      | none => t
      | some j => t.take i ++ stripFenced (t.drop (j + 3)) fuel

/-- Removal of inline code spans, `out.replace(/`[^`\n]*`/g, '')`: at a
backtick, consume through the next backtick on the same line if one
exists, else keep the character and move on one position. -/
def stripInline : List Char → Nat → List Char
  | t, 0 => t
  | [], _ => []
  | c :: rest, fuel + 1 =>
    if c == btC then
      let content := rest.takeWhile (fun x => !(x == btC) && !(x == '\n'))
      match (rest.drop content.length).head? with
      | some d =>
        if d == btC then stripInline (rest.drop (content.length + 1)) fuel
        else c :: stripInline rest fuel
      | none => c :: stripInline rest fuel
    else c :: stripInline rest fuel

/-- Removal of blockquote lines: drop every line whose `trimStart`
begins with `>`, and rejoin with newlines. -/
def stripBlockquotes (t : List Char) : List Char :=
  let lines := t.splitOn '\n'
  let kept := lines.filter (fun line => !((line.dropWhile jsWS).head? == some '>'))
  (kept.intersperse ['\n']).flatten

/-- stripLowSignalRegions: fenced blocks, then inline code spans, then
blockquote lines. -/
def stripLowSignalRegions (t : List Char) : List Char :=
  let noFenced := stripFenced t (t.length + 1)
  let noInline := stripInline noFenced (noFenced.length + 1)
  stripBlockquotes noInline

/-- ScanText: the raw/stripped/lowered triple every matcher block of
`findTriggerMatches` works over (`rawText`, `haystack`, `lower`). -/
structure ScanText where
  rawText : List Char
  haystack : List Char
  lower : List Char
deriving DecidableEq, Repr

/-- The scan triple of an input text, as computed at the top of
`findTriggerMatches`. -/
def scanOf (text : List Char) : ScanText :=
  let rawText := normalizeForScan text
  let haystack := stripLowSignalRegions rawText
  ⟨rawText, haystack, lowerCL haystack⟩

/-- splitIntoSentences' raw split, `text.split(/(?<=[.!?])\\s+/)`: a new
segment starts at each maximal whitespace run whose preceding character
is `.`, `!` or `?`; the run itself is the separator.  The accumulator
holds the current segment reversed; `fuel` bounds the recursion (callers
pass `text.length + 1`, enough since every step consumes input). -/
def splitRawAux : Nat → List Char → List Char → List (List Char)
  | 0, t, acc => [(acc.reverse ++ t)]
  | _ + 1, [], acc => [acc.reverse]
  | fuel + 1, c :: rest, acc =>
    if jsWS c && (acc.head? == some '.' || acc.head? == some '!' ||
        acc.head? == some '?') then
      acc.reverse :: splitRawAux fuel (rest.dropWhile jsWS) []
    else
      splitRawAux fuel rest (c :: acc)

/-- splitIntoSentences: split on sentence-final punctuation followed by
whitespace, trim, drop empties. -/
def splitIntoSentences (text : List Char) : List (List Char) :=
  ((splitRawAux (text.length + 1) text []).map jsTrim).filter (fun s => !s.isEmpty)

/-- Word-or-hyphen character class `[\w-]`. -/
def isWordOrHyphen (c : Char) : Bool := isWordChar c || c == '-'

/-- PRESCRIPTIVE_SHOULD:
`\bshould\s+be\s+(?:`...`|["'][^"']+["']|\d[\d.]*\b|(?:true|false|null|undefined|none|int|str|float|string|boolean|void)\b|(?:a|an|the)\s+\w[\w-]*|[\w][\w-]{1,})`
with the `i` flag. -/
def PRESCRIPTIVE_SHOULD : Matcher :=
  mSeqs [mWB, mLit ("should".data), wsPlus, mLit ("be".data), wsPlus,
    mAlt [mSeqs [mLit [btC], mCls (fun c => !(c == btC)) 1 none, mLit [btC]],
      mSeqs [mCls isQuoteChar 1 (some 1), mCls (fun c => !isQuoteChar c) 1 none,
        mCls isQuoteChar 1 (some 1)],
      mSeqs [mCls Char.isDigit 1 (some 1),
        mCls (fun c => c.isDigit || c == '.') 0 none, mWB],
      mSeqs [mLits [("true".data), ("false".data), ("null".data),
        ("undefined".data), ("none".data), ("int".data), ("str".data),
        ("float".data), ("string".data), ("boolean".data), ("void".data)], mWB],
      mSeqs [mLits [("a".data), ("an".data), ("the".data)], wsPlus,
        mCls isWordChar 1 (some 1), mCls isWordOrHyphen 0 none],
      mSeqs [mCls isWordChar 1 (some 1), mCls isWordOrHyphen 1 none]]]

/-- HYPOTHESIS_SHOULD:
`\b(?:H[0₀aA1₁]|hypothesis|null hypothesis|prediction)\b[^.]*\bshould\b`
with the `i` flag. -/
def HYPOTHESIS_SHOULD : Matcher :=
  mSeqs [mWB,
    mAlt [mSeqs [mLit ("h".data),
        mCls (fun c => c == '0' || c == '₀' || c == 'a' || c == '1' || c == '₁')
          1 (some 1)],
      mLit ("hypothesis".data), mLit ("null hypothesis".data),
      mLit ("prediction".data)],
    mWB, mCls (fun c => !(c == '.')) 0 none, mWB, mLit ("should".data), mWB]

/-- INSTRUCTIONAL_SHOULD:
`\byou\s+should\s+(?:set|configure|change|update|use|add|remove|ensure|verify|check)\b`
with the `i` flag. -/
def INSTRUCTIONAL_SHOULD : Matcher :=
  mSeqs [mWB, mLit ("you".data), wsPlus, mLit ("should".data), wsPlus,
    mLits [("set".data), ("configure".data), ("change".data), ("update".data),
      ("use".data), ("add".data), ("remove".data), ("ensure".data),
      ("verify".data), ("check".data)], mWB]

/-- EPISTEMIC_SUBJECT_SHOULD:
`\b(?:it|this|that|everything|things?)\s+should\s+be\b` with the `i`
flag. -/
def EPISTEMIC_SUBJECT_SHOULD : Matcher :=
  mSeqs [mWB,
    mAlt [mLit ("it".data), mLit ("this".data), mLit ("that".data),
      mLit ("everything".data), mLitOptS ("thing".data)],
    wsPlus, mLit ("should".data), wsPlus, mLit ("be".data), mWB]

/-- TEMPORAL_SINCE:
`\bsince\s+(?:last\s+)?(?:yesterday|today|then|\d{4}|\d{1,2}[slash or dash]\d{1,2}|\d+\s+(?:minutes?|hours?|days?|weeks?|months?|years?)\s+ago|the\s+(?:beginning|start|end)|version\s+\d)`
with the `i` flag. -/
def TEMPORAL_SINCE : Matcher :=
  mSeqs [mWB, mLit ("since".data), wsPlus,
    mOpt (mSeqs [mLit ("last".data), wsPlus]),
    mAlt [mLit ("yesterday".data), mLit ("today".data), mLit ("then".data),
      mCls Char.isDigit 4 (some 4),
      mSeqs [mCls Char.isDigit 1 (some 2),
        mCls (fun c => c == '/' || c == '-') 1 (some 1),
        mCls Char.isDigit 1 (some 2)],
      mSeqs [mCls Char.isDigit 1 none, wsPlus,
        mAlt [mLitOptS ("minute".data), mLitOptS ("hour".data),
          mLitOptS ("day".data), mLitOptS ("week".data),
          mLitOptS ("month".data), mLitOptS ("year".data)],
        wsPlus, mLit ("ago".data)],
      mSeqs [mLit ("the".data), wsPlus,
        mLits [("beginning".data), ("start".data), ("end".data)]],
      mSeqs [mLit ("version".data), wsPlus, mCls Char.isDigit 1 (some 1)]]]

/-- HEDGED_BECAUSE:
`\b(?:probably|likely|possibly|perhaps|maybe|might\s+be|could\s+be)\s+because\b`
with the `i` flag. -/
def HEDGED_BECAUSE : Matcher :=
  mSeqs [mWB,
    mAlt [mLit ("probably".data), mLit ("likely".data), mLit ("possibly".data),
      mLit ("perhaps".data), mLit ("maybe".data),
      mSeqs [mLit ("might".data), wsPlus, mLit ("be".data)],
      mSeqs [mLit ("could".data), wsPlus, mLit ("be".data)]],
    wsPlus, mLit ("because".data), mWB]

/-- IMPLICIT_CAUSALITY[0]:
`\.\s+This\s+(?:made|caused|meant|led\s+to|resulted\s+in|explains?\s+why|is\s+(?:why|because))\b`
with the `i` flag. -/
def implicitCausality1 : Matcher :=
  mSeqs [mLit (".".data), wsPlus, mLit ("this".data), wsPlus,
    mAlt [mLit ("made".data), mLit ("caused".data), mLit ("meant".data),
      mSeqs [mLit ("led".data), wsPlus, mLit ("to".data)],
      mSeqs [mLit ("resulted".data), wsPlus, mLit ("in".data)],
      mSeqs [mLitOptS ("explain".data), wsPlus, mLit ("why".data)],
      mSeqs [mLit ("is".data), wsPlus,
        mLits [("why".data), ("because".data)]]],
    mWB]

/-- IMPLICIT_CAUSALITY[1]:
`\.\s+That(?:'s|\s+is)\s+(?:why|because|the\s+reason)\b` with the `i`
flag. -/
def implicitCausality2 : Matcher :=
  mSeqs [mLit (".".data), wsPlus, mLit ("that".data),
    mAlt [mLit [Char.ofNat 39, 's'], mSeqs [wsPlus, mLit ("is".data)]],
    wsPlus,
    mAlt [mLit ("why".data), mLit ("because".data),
      mSeqs [mLit ("the".data), wsPlus, mLit ("reason".data)]],
    mWB]

/-- NOMINALIZED_CAUSALITY[0]:
`\bthe\s+(?:likely|probable|possible|main|primary|underlying)\s+(?:cause|reason|explanation)\b`
with the `i` flag. -/
def nominalizedCausality1 : Matcher :=
  mSeqs [mWB, mLit ("the".data), wsPlus,
    mLits [("likely".data), ("probable".data), ("possible".data),
      ("main".data), ("primary".data), ("underlying".data)],
    wsPlus, mLits [("cause".data), ("reason".data), ("explanation".data)], mWB]

/-- NOMINALIZED_CAUSALITY[1]:
`\bthe\s+(?:cause|reason|explanation|root\s+cause)\s+(?:of|for|behind)\s+(?:this|that|the)\b`
with the `i` flag. -/
def nominalizedCausality2 : Matcher :=
  mSeqs [mWB, mLit ("the".data), wsPlus,
    mAlt [mLit ("cause".data), mLit ("reason".data), mLit ("explanation".data),
      mSeqs [mLit ("root".data), wsPlus, mLit ("cause".data)]],
    wsPlus, mLits [("of".data), ("for".data), ("behind".data)], wsPlus,
    mLits [("this".data), ("that".data), ("the".data)], mWB]

/-- PASSIVE_CAUSALITY[0]: `\bwas\s+(?:caused|triggered|produced)\s+by\b`
with the `i` flag. -/
def passiveCausality1 : Matcher :=
  mSeqs [mWB, mLit ("was".data), wsPlus,
    mLits [("caused".data), ("triggered".data), ("produced".data)], wsPlus,
    mLit ("by".data), mWB]

/-- PASSIVE_CAUSALITY[1]: `\bresulted\s+(?:from|in)\b` with the `i` flag. -/
def passiveCausality2 : Matcher :=
  mSeqs [mWB, mLit ("resulted".data), wsPlus,
    mLits [("from".data), ("in".data)], mWB]

/-- PASSIVE_CAUSALITY[2]: `\bcan\s+be\s+traced\s+(?:back\s+)?to\b` with
the `i` flag. -/
def passiveCausality3 : Matcher :=
  mSeqs [mWB, mLit ("can".data), wsPlus, mLit ("be".data), wsPlus,
    mLit ("traced".data), wsPlus, mOpt (mSeqs [mLit ("back".data), wsPlus]),
    mLit ("to".data), mWB]

/-- nOverTenRe: `\b(\d+(?:\.\d+)?)\s*\/\s*10\b` with the `i` flag. -/
def nOverTenRe : Matcher :=
  mSeqs [mWB, mCls Char.isDigit 1 none,
    mOpt (mSeqs [mLit (".".data), mCls Char.isDigit 1 none]), wsStar,
    mLit ("/".data), wsStar, mLit ("10".data), mWB]

/-- percentRe: `\b\d{1,3}(?:\.\d+)?\s*%\b` with the `i` flag.  Note the
trailing `\b` after `%`: since `%` is not a word character, it only
succeeds when the character immediately after `%` is a word character. -/
def percentRe : Matcher :=
  mSeqs [mWB, mCls Char.isDigit 1 (some 3),
    mOpt (mSeqs [mLit (".".data), mCls Char.isDigit 1 none]), wsStar,
    mLit ("%".data), mWB]

/-- Count-noun lookahead of `isQualityScore`:
`^\s+(?:requirements?|items?|tests?|files?|checks?|tasks?|steps?|issues?|points?|modules?|cases?|features?|commits?|lines?|rules?)\b`
with the `i` flag, anchored at the start of the 35-character slice after
the match. -/
def countNounRe : Matcher :=
  mSeqs [wsPlus,
    mAlt [mLitOptS ("requirement".data), mLitOptS ("item".data),
      mLitOptS ("test".data), mLitOptS ("file".data), mLitOptS ("check".data),
      mLitOptS ("task".data), mLitOptS ("step".data), mLitOptS ("issue".data),
      mLitOptS ("point".data), mLitOptS ("module".data),
      mLitOptS ("case".data), mLitOptS ("feature".data),
      mLitOptS ("commit".data), mLitOptS ("line".data),
      mLitOptS ("rule".data)], mWB]

/-- completenessRegexes[0]:
`\ball\s+\w+\s+have\s+been\s+(?:fixed|resolved|updated|added|removed|checked|verified|addressed|handled|processed|completed)\b`
with the `i` flag. -/
def completenessRegex1 : Matcher :=
  mSeqs [mWB, mLit ("all".data), wsPlus, mCls isWordChar 1 none, wsPlus,
    mLit ("have".data), wsPlus, mLit ("been".data), wsPlus,
    mLits [("fixed".data), ("resolved".data), ("updated".data),
      ("added".data), ("removed".data), ("checked".data), ("verified".data),
      ("addressed".data), ("handled".data), ("processed".data),
      ("completed".data)], mWB]

/-- completenessRegexes[1]: `\bno\s+remaining\s+\w+\b` with the `i` flag. -/
def completenessRegex2 : Matcher :=
  mSeqs [mWB, mLit ("no".data), wsPlus, mLit ("remaining".data), wsPlus,
    mCls isWordChar 1 none, mWB]

/-- completenessRegexes[2]: `\b(?:fully|completely)\s+\w+(?:ed|d)\b` with
the `i` flag. -/
def completenessRegex3 : Matcher :=
  mSeqs [mWB, mLits [("fully".data), ("completely".data)], wsPlus,
    mCls isWordChar 1 none, mLits [("ed".data), ("d".data)], mWB]

/-- completenessRegexes[3]: `\beverything\s+(?:is|has\s+been)\s+\w+\b`
with the `i` flag. -/
def completenessRegex4 : Matcher :=
  mSeqs [mWB, mLit ("everything".data), wsPlus,
    mAlt [mLit ("is".data), mSeqs [mLit ("has".data), wsPlus, mLit ("been".data)]],
    wsPlus, mCls isWordChar 1 none, mWB]

/-- completenessRegexes[4]:
`\ball\s+(?:of\s+)?(?:the\s+)?\w+\s+(?:are|is)\s+now\s+\w+\b` with the
`i` flag. -/
def completenessRegex5 : Matcher :=
  mSeqs [mWB, mLit ("all".data), wsPlus, mOpt (mSeqs [mLit ("of".data), wsPlus]),
    mOpt (mSeqs [mLit ("the".data), wsPlus]), mCls isWordChar 1 none, wsPlus,
    mLits [("are".data), ("is".data)], wsPlus, mLit ("now".data), wsPlus,
    mCls isWordChar 1 none, mWB]

/-- The speculation phrase list of block 1 of `findTriggerMatches`, in
source order (`'should be'` was removed from it; see the should block). -/
def speculationPhrases : List (List Char) :=
  [("i think".data), ("i believe".data), ("probably".data), ("likely".data),
   ("it seems".data), ("seems like".data), ("i assume".data), ("assume".data),
   ("maybe".data), ("might be".data), ("could be".data), ("presumably".data)]

/-- Block 1 of `findTriggerMatches`: for each speculation phrase, look at
the first occurrence only; flag it unless it lies inside a question. -/
def specLoopMatches (st : ScanText) : List TMatch :=
  speculationPhrases.flatMap fun phrase =>
    match idxOf phrase st.lower with
    | none => []
    | some idx =>
      if isIndexWithinQuestion st.haystack idx then []
      else [⟨TriggerKind.speculation_language, phrase⟩]

/-- The should block of `findTriggerMatches` (Change 3): epistemic
subject flags unconditionally; else hypothesis, instructional and
prescriptive patterns suppress in that order; else a plain `should be`
is flagged at its first occurrence unless inside a question. -/
def shouldMatches (st : ScanText) : List TMatch :=
  if containsSub ("should be".data) st.lower || containsSub ("should".data) st.lower
  then
    if reTest EPISTEMIC_SUBJECT_SHOULD st.lower then
      [⟨TriggerKind.speculation_language, ("should be (epistemic)".data)⟩]
    else if reTest HYPOTHESIS_SHOULD st.lower then []
    else if reTest INSTRUCTIONAL_SHOULD st.lower then []
    else if reTest PRESCRIPTIVE_SHOULD st.lower then []
    else
      match idxOf ("should be".data) st.lower with
      | some idx =>
        if isIndexWithinQuestion st.haystack idx then []
        else [⟨TriggerKind.speculation_language, ("should be".data)⟩]
      | none => []
  else []

/-- The causality phrase list of block 2 of `findTriggerMatches`, in
source order. -/
def causalityPhrases : List (List Char) :=
  [("caused by".data), ("due to".data), ("because".data), ("as a result".data),
   ("therefore".data), ("this means".data), ("consequently".data),
   ("as a consequence".data), ("hence".data), ("thus".data),
   ("it follows that".data), ("this suggests that".data),
   ("this indicates that".data), ("this implies that".data),
   ("which is why".data), ("which means".data), ("which explains".data),
   ("the root cause".data), ("stems from".data), ("results from".data),
   ("resulted in".data), ("led to".data), ("attributable to".data),
   ("given that".data), ("since".data)]

/-- The temporal-`since` suppression test: TEMPORAL_SINCE on the
window from 50 characters before to 100 after the occurrence. -/
def temporalSinceNearby (st : ScanText) (idx : Nat) : Bool :=
  reTest TEMPORAL_SINCE (sliceCL st.lower (idx - 50) (min st.lower.length (idx + 100)))

/-- The body of the `while` loop of the causality block, processing one
phrase's occurrence list in order: question occurrences are skipped;
`since` is also skipped when a temporal reference is nearby; for
`because`, a global HEDGED_BECAUSE hit flags once and stops, otherwise
each occurrence without nearby evidence is flagged and the scan goes on;
every other phrase flags its first occurrence without nearby evidence
and stops. -/
def processCausalityOccs (st : ScanText) (phrase : List Char) :
    List Nat → List TMatch
  | [] => []
  | idx :: rest =>
    if isIndexWithinQuestion st.haystack idx then
      processCausalityOccs st phrase rest
    else if phrase == ("since".data) && temporalSinceNearby st idx then
      processCausalityOccs st phrase rest
    else if phrase == ("because".data) then
      if reTest HEDGED_BECAUSE st.lower then
        [⟨TriggerKind.causality_language, ("because (hedged)".data)⟩]
      else if hasEvidenceNearby st.haystack idx st.rawText then
        processCausalityOccs st phrase rest
      else
        ⟨TriggerKind.causality_language, phrase⟩ ::
          processCausalityOccs st phrase rest
    else if hasEvidenceNearby st.haystack idx st.rawText then
      processCausalityOccs st phrase rest
    else [⟨TriggerKind.causality_language, phrase⟩]

/-- Block 2 of `findTriggerMatches`: the causality phrase loop over all
occurrences of each phrase. -/
def causalityMatches (st : ScanText) : List TMatch :=
  causalityPhrases.flatMap fun phrase =>
    processCausalityOccs st phrase (occList phrase st.lower 0 (st.lower.length + 1))

/-- The seven structural causality patterns (Change 7), in source order:
implicit, nominalized, passive. -/
def structuralCausalityRes : List Matcher :=
  [implicitCausality1, implicitCausality2, nominalizedCausality1,
   nominalizedCausality2, passiveCausality1, passiveCausality2,
   passiveCausality3]

/-- The structural causality block of `findTriggerMatches`: first match
of each pattern, suppressed inside questions or near evidence; the
evidence string is the trimmed matched text. -/
def structuralCausalityMatches (st : ScanText) : List TMatch :=
  structuralCausalityRes.flatMap fun re =>
    match reFirst re st.lower with
    | none => []
    | some (i, n) =>
      if isIndexWithinQuestion st.haystack i then []
      else if hasEvidenceNearby st.haystack i st.rawText then []
      else [⟨TriggerKind.causality_language, jsTrim (sliceCL st.haystack i (i + n))⟩]

/-- Value of a decimal numeral prefix, modelling `parseFloat` on the
numerator strings the `N/10` regex can produce (digits, an optional
fraction, anything after stops the parse). -/
def digitsToNat : List Char → Nat → Nat
  | [], acc => acc
  | c :: rest, acc => digitsToNat rest (acc * 10 + (c.toNat - 48))

/-- parseFloat on a numerator string: leading digits, then an optional
point and fraction digits (the value is built with `Rat.divInt`, which
is the same rational as integer part plus fraction). -/
def numPrefixVal (cs : List Char) : ℚ :=
  let intPart := cs.takeWhile Char.isDigit
  let rest := cs.drop intPart.length
  let frac :=
    if rest.head? == some '.' then (rest.drop 1).takeWhile Char.isDigit else []
  Rat.divInt (digitsToNat intPart 0 * 10 ^ frac.length + digitsToNat frac 0)
    (10 ^ frac.length)

/-- isQualityScore (Change 4): a 10 numerator is a count ratio, a
decimal numerator is always a score, a count noun right after the match
(within the 35-character lookahead) makes it a count ratio, anything
else is a score. -/
def isQualityScore (text : List Char) (matchStr : List Char) (matchIndex : Nat) :
    Bool :=
  let numStr := matchStr.takeWhile (fun c => !(c == '/'))
  let numerator := numPrefixVal numStr
  if numerator = 10 then false
  else if numStr.contains '.' then true
  else
    let after := sliceCL text (matchIndex + matchStr.length)
      (matchIndex + matchStr.length + 35)
    if (countNounRe none (lowerCL after)).head?.isSome then false
    else true

/-- The `N/10` part of block 3 of `findTriggerMatches`: first match of
`nOverTenRe`, flagged iff `isQualityScore` accepts it. -/
def nOverTenMatches (st : ScanText) : List TMatch :=
  match reFirst nOverTenRe st.lower with
  | none => []
  | some (i, n) =>
    let m := sliceCL st.haystack i (i + n)
    if isQualityScore st.haystack m i then
      [⟨TriggerKind.pseudo_quantification, m⟩]
    else []

/-- The percentage part of block 3 of `findTriggerMatches`: first match
of `percentRe`, flagged unconditionally (no suppression of any kind). -/
def percentMatches (st : ScanText) : List TMatch :=
  match reFirst percentRe st.lower with
  | none => []
  | some (i, n) => [⟨TriggerKind.pseudo_quantification, sliceCL st.haystack i (i + n)⟩]

/-- The completeness phrase list of block 4 of `findTriggerMatches`, in
source order. -/
def completenessPhrases : List (List Char) :=
  [("all files checked".data), ("comprehensive analysis".data),
   ("everything is fixed".data), ("fully resolved".data),
   ("complete solution".data), ("all issues resolved".data),
   ("all issues fixed".data), ("all tests pass".data),
   ("all tests passing".data), ("no issues found".data),
   ("no errors found".data), ("no remaining issues".data),
   ("no remaining errors".data), ("nothing left to do".data),
   ("task is complete".data), ("task is done".data),
   ("fully implemented".data), ("fully complete".data),
   ("fully functional".data), ("completely resolved".data),
   ("completely fixed".data), ("completely done".data), ("all done".data),
   ("all complete".data), ("all fixed".data), ("all resolved".data),
   ("entirely resolved".data), ("entirely fixed".data),
   ("nothing else to fix".data), ("nothing else to do".data),
   ("everything works".data), ("everything is working".data)]

/-- The completeness phrase loop: each phrase present anywhere is
flagged, with no question or evidence suppression. -/
def completenessPhraseMatches (st : ScanText) : List TMatch :=
  completenessPhrases.flatMap fun phrase =>
    match idxOf phrase st.lower with
    | none => []
    | some _ => [⟨TriggerKind.completeness_claim, phrase⟩]

/-- The five structural completeness patterns (Change 5), in source
order. -/
def completenessRegexes : List Matcher :=
  [completenessRegex1, completenessRegex2, completenessRegex3,
   completenessRegex4, completenessRegex5]

/-- The structural completeness block: first match of each pattern,
suppressed inside questions or after a preceding enumerated list. -/
def completenessRegexMatches (st : ScanText) : List TMatch :=
  completenessRegexes.flatMap fun re =>
    match reFirst re st.lower with
    | none => []
    | some (i, n) =>
      if isIndexWithinQuestion st.haystack i then []
      else if hasEnumerationNearby st.haystack i then []
      else [⟨TriggerKind.completeness_claim, jsTrim (sliceCL st.haystack i (i + n))⟩]

/-- findTriggerMatches: the whole-text trigger detection (`detect` of
the spec).  The blocks push in source order: speculation phrases, the
should classification, causality phrases, structural causality, `N/10`,
percentages, completeness phrases, structural completeness. -/
def findTriggerMatches (text : List Char) : List TMatch :=
  let st := scanOf text
  specLoopMatches st ++ shouldMatches st ++ causalityMatches st ++
    structuralCausalityMatches st ++ nOverTenMatches st ++
    percentMatches st ++ completenessPhraseMatches st ++
    completenessRegexMatches st

/-- ScoreVector: the per-category binary score object of
`scoreSentence`, one field per TriggerKind. -/
structure ScoreVector where
  speculation_language : ℚ
  causality_language : ℚ
  pseudo_quantification : ℚ
  completeness_claim : ℚ
  fabricated_source : ℚ
deriving DecidableEq, Repr

/-- The all-zero score vector (the initial `scores` object). -/
def zeroScores : ScoreVector := ⟨0, 0, 0, 0, 0⟩

/-- Setting the field of a kind to 1 (`scores[match.kind] = 1`; every
kind a matcher can produce is a field, so `Object.hasOwn` always
accepts). -/
def setScore (v : ScoreVector) : TriggerKind → ScoreVector
  | TriggerKind.speculation_language => { v with speculation_language := 1 }
  | TriggerKind.causality_language => { v with causality_language := 1 }
  | TriggerKind.pseudo_quantification => { v with pseudo_quantification := 1 }
  | TriggerKind.completeness_claim => { v with completeness_claim := 1 }
  | TriggerKind.fabricated_source => { v with fabricated_source := 1 }

/-- scoreSentence: run `findTriggerMatches` and reduce the match list to
binary per-category scores. -/
def scoreSentence (sentence : List Char) : ScoreVector :=
  (findTriggerMatches sentence).foldl (fun v m => setScore v m.kind) zeroScores

/-- Weights: a JS object mapping category-name strings to numbers,
modelled as an association list in insertion order (arbitrary keys, as a
config file may supply unknown ones). -/
abbrev Weights : Type := List (String × ℚ)

/-- DEFAULT_WEIGHTS: speculation 0.25, causality 0.30,
pseudo-quantification 0.15, completeness 0.20, fabricated_source 0.10. -/
def DEFAULT_WEIGHTS : Weights :=
  [("speculation_language", 1/4), ("causality_language", 3/10),
   ("pseudo_quantification", 3/20), ("completeness_claim", 1/5),
   ("fabricated_source", 1/10)]

/-- JS property read `scores[category] || 0` on a ScoreVector: the field
for a known category name, 0 for any other key. -/
def scoreGet (v : ScoreVector) (k : String) : ℚ :=
  if k == "speculation_language" then v.speculation_language
  else if k == "causality_language" then v.causality_language
  else if k == "pseudo_quantification" then v.pseudo_quantification
  else if k == "completeness_claim" then v.completeness_claim
  else if k == "fabricated_source" then v.fabricated_source
  else 0

/-- Math.round (half toward positive infinity). -/
def jsRound (q : ℚ) : ℤ := ⌊q + 1/2⌋

/-- The final rounding of `aggregateWeightedScore`:
`Math.round(raw * 1e10) / 1e10`. -/
def jsRound10 (q : ℚ) : ℚ := (jsRound (q * (10 ^ 10 : ℚ)) : ℚ) / (10 ^ 10 : ℚ)

/-- aggregateWeightedScore: iterate over the entries of the weight
object (`DEFAULT_WEIGHTS` when the argument is absent), accumulating
`total += weight * (scores[category] || 0)` and `weightSum += weight`
with no validation of keys or values; 0 when the weight sum is 0, else
the normalized total rounded to 10 decimal places. -/
def aggregateWeightedScore (scores : ScoreVector) (weights : Option Weights) :
    ℚ :=
  let w := match weights with
    | some x => x
    | none => DEFAULT_WEIGHTS
  let acc : ℚ × ℚ := w.foldl
    (fun tw kv => (tw.1 + kv.2 * scoreGet scores kv.1, tw.2 + kv.2))
    (0, 0)
  if acc.2 = 0 then 0 else jsRound10 (acc.1 / acc.2)

/-- getLabelForScore: GROUNDED below 0.30, UNCERTAIN up to 0.60
inclusive, HALLUCINATED above. -/
def getLabelForScore (score : ℚ) : String :=
  if score < 3/10 then "GROUNDED"
  else if score ≤ 3/5 then "UNCERTAIN"
  else "HALLUCINATED"

/-- SentenceResult: one per sentence of `scoreText`. -/
structure SentenceResult where
  sentence : List Char
  index : Nat
  total : Nat
  scores : ScoreVector
  aggregateScore : ℚ
  label : String
deriving DecidableEq, Repr

/-- scoreText: split into sentences and score each one with the given
weights (absent means `DEFAULT_WEIGHTS` inside the aggregator). -/
def scoreText (text : List Char) (weights : Option Weights) :
    List SentenceResult :=
  let sentences := splitIntoSentences text
  let total := sentences.length
  sentences.mapIdx fun index sentence =>
    let scores := scoreSentence sentence
    let aggregateScore := aggregateWeightedScore scores weights
    ⟨sentence, index, total, scores, aggregateScore, getLabelForScore aggregateScore⟩

/-- JS property write `obj[k] = v` on an insertion-ordered object:
replace in place when the key exists, append otherwise. -/
def objSet (m : Weights) (k : String) (v : ℚ) : Weights :=
  if m.any (fun kv => kv.1 == k) then
    m.map (fun kv => if kv.1 == k then (k, v) else kv)
  else m ++ [(k, v)]

/-- JS object spread `{ ...a, ...b }`: b's entries written over a in
order. -/
def objSpread (a b : Weights) : Weights :=
  b.foldl (fun m kv => objSet m kv.1 kv.2) a

/-- JS property read `obj[k]` on an insertion-ordered object. -/
def objLookup (m : Weights) (k : String) : Option ℚ :=
  (m.find? (fun kv => kv.1 == k)).map (fun kv => kv.2)

/-- loadWeights: when the optional config supplies a `weights` object
`rc`, return `{ ...DEFAULT_WEIGHTS, ...rc.weights }`; on a missing or
malformed config, return the defaults.  The file lookup itself is I/O
outside the core; its outcome is the `Option` argument. -/
def loadWeights (rc : Option Weights) : Weights :=
  match rc with
  | none => DEFAULT_WEIGHTS
  | some ws => objSpread DEFAULT_WEIGHTS ws

/-- Default weight of a category as the spec names them (0.25, 0.30,
0.15, 0.20, 0.10). -/
def defaultWeightOf : TriggerKind → ℚ
  | TriggerKind.speculation_language => 1/4
  | TriggerKind.causality_language => 3/10
  | TriggerKind.pseudo_quantification => 3/20
  | TriggerKind.completeness_claim => 1/5
  | TriggerKind.fabricated_source => 1/10

/-- Spec-side should classification, written from the claim's words:
epistemic anywhere always flags (even inside a question); else
hypothesis framing suppresses; else instructional suppresses; else
prescriptive suppresses; else a plain `should be` is flagged unless its
occurrence is inside a question. -/
def specShouldClassification (st : ScanText) : List TMatch :=
  if reTest EPISTEMIC_SUBJECT_SHOULD st.lower then
    [⟨TriggerKind.speculation_language, ("should be (epistemic)".data)⟩]
  else if reTest HYPOTHESIS_SHOULD st.lower then []
  else if reTest INSTRUCTIONAL_SHOULD st.lower then []
  else if reTest PRESCRIPTIVE_SHOULD st.lower then []
  else
    match idxOf ("should be".data) st.lower with
    | some idx =>
      if isIndexWithinQuestion st.haystack idx then []
      else [⟨TriggerKind.speculation_language, ("should be".data)⟩]
    | none => []

/-- Amended-claim because scan: when the hedged-because pattern occurs
anywhere in the text, the first occurrence of `because` outside a
question yields one `because (hedged)` match and the scan stops;
otherwise every occurrence outside a question with no nearby evidence
yields a plain `because` match. -/
def specAmendedBecause (st : ScanText) (occs : List Nat) : List TMatch :=
  let qocc := occs.filter (fun idx => !isIndexWithinQuestion st.haystack idx)
  if reTest HEDGED_BECAUSE st.lower then
    if qocc.isEmpty then []
    else [⟨TriggerKind.causality_language, ("because (hedged)".data)⟩]
  else
    (qocc.filter (fun idx => !hasEvidenceNearby st.haystack idx st.rawText)).map
      (fun _ => ⟨TriggerKind.causality_language, ("because".data)⟩)

/-- Whether `l` ends with the suffix `suf`. -/
def endsWithCL (suf l : List Char) : Bool := suf.reverse.isPrefixOf l.reverse

/-- The hedging words of the claim for C6 ("probably/likely/possibly/
maybe/might be/could be", plus "perhaps" from the source's pattern). -/
def hedgingWords : List (List Char) :=
  [("probably".data), ("likely".data), ("possibly".data), ("perhaps".data),
   ("maybe".data), ("might be".data), ("could be".data)]

/-- Claim-side probe for C6: a hedging word, as a standalone word,
immediately (up to whitespace) before the occurrence of `because` at
`idx`. -/
def hedgingWordJustBefore (lower : List Char) (idx : Nat) : Bool :=
  let pre := lower.take idx
  let ws := (pre.reverse.takeWhile jsWS).length
  decide (1 ≤ ws) &&
    hedgingWords.any fun h =>
      let core := pre.take (pre.length - ws)
      endsWithCL h core && decide (h.length ≤ core.length) &&
        !isWordOpt ((core.take (core.length - h.length)).getLast?)

/-- An occurrence of `needle` in `hay` as a standalone word: word
boundaries on both sides (the claim-side notion for C10). -/
def standaloneOccurs (needle hay : List Char) : Bool :=
  (List.range (hay.length + 1)).any fun i =>
    needle.isPrefixOf (hay.drop i) &&
      !isWordOpt (prevAfter none hay i) &&
      !isWordOpt (hay[i + needle.length]?)

/-- The count-noun lookahead of `isQualityScore` as the claim phrases
it: a count noun immediately after the match, within the 35-character
window. -/
def countNounFollows (text : List Char) (matchStr : List Char)
    (matchIndex : Nat) : Bool :=
  let after := sliceCL text (matchIndex + matchStr.length)
    (matchIndex + matchStr.length + 35)
  ((countNounRe none (lowerCL after)).head?).isSome

/-- Evaluation helper for the 10-decimal rounding: when `q * 10^10` is
the integer `n`, the rounded value is `n / 10^10`. -/
theorem jsRound10_eq (q : ℚ) (n : ℤ) (hq : q * 10 ^ 10 = (n : ℚ)) :
    jsRound10 q = (n : ℚ) / 10 ^ 10 := by
  unfold jsRound10 jsRound
  rw [hq]
  have hfl : ⌊(n : ℚ) + 1/2⌋ = n := by
    rw [Int.floor_eq_iff]
    constructor
    · linarith
    · linarith
  rw [hfl]

/-- C1: the claim says `loadWeights` validates each supplied override
key (unknown keys never appear, invalid values keep the default).  The
code spreads the override over the defaults with no validation: an
unknown key is retained with its value, and a negative value replaces
the default.  This contradicts the repository's own tests
(`loadWeights` "ignores unknown category keys from config" and "ignores
invalid weight values"), so the code, not the claim, is at fault. -/
theorem loadWeights_spread_keeps_unknown_and_invalid :
    objLookup (loadWeights (some [("unknown_category", 99/100)]))
        "unknown_category" = some (99/100) ∧
      loadWeights (some [("unknown_category", 99/100)]) =
        DEFAULT_WEIGHTS ++ [("unknown_category", 99/100)] ∧
      objLookup (loadWeights (some [("speculation_language", -1)]))
        "speculation_language" = some (-1) := by
  refine ⟨rfl, rfl, rfl⟩

/-- C2: the claim says unknown keys and invalid weight values
contribute nothing to the weighted total or the weight sum.  The code
accumulates every entry unconditionally: an unknown key adds its weight
to the normalizing sum (the repository's own test "ignores unknown
category keys in custom weights" expects 1 here and the code yields
1/100), and a negative weight is used as-is (the weight set
`causality_language = -0.3` with a causality hit yields 1, not the 0 an
all-invalid weight set should give). -/
theorem aggregateWeightedScore_counts_unknown_keys :
    aggregateWeightedScore ⟨1, 0, 0, 0, 0⟩
        (some [("unknown_key", 99), ("speculation_language", 1)]) = 1/100 ∧
      aggregateWeightedScore ⟨0, 1, 0, 0, 0⟩
        (some [("causality_language", -(3/10))]) = 1 ∧
      aggregateWeightedScore ⟨1, 0, 0, 0, 0⟩ (some []) = 0 := by
  refine ⟨?_, ?_, ?_⟩
  · unfold aggregateWeightedScore
    norm_num [List.foldl, scoreGet, String.reduceEq]
    rw [jsRound10_eq _ 100000000 (by simp only [String.reduceEq, reduceIte]; norm_num)]
    norm_num
  · unfold aggregateWeightedScore
    norm_num [List.foldl, scoreGet, String.reduceEq]
    rw [jsRound10_eq _ 10000000000 (by simp only [String.reduceEq, reduceIte]; norm_num)]
    norm_num
  · unfold aggregateWeightedScore
    norm_num [List.foldl]

/-- C8: with default weights, a score vector in which exactly one
category is set yields that category's default weight (rounding is
exact on these values), and the all-ones vector yields exactly 1; the
sentence-level form follows for every sentence whose score vector sets
exactly one category. -/
theorem aggregateScore_single_and_all_categories :
    (∀ (s : List Char) (k : TriggerKind),
        scoreSentence s = setScore zeroScores k →
          aggregateWeightedScore (scoreSentence s) none = defaultWeightOf k) ∧
      aggregateWeightedScore ⟨1, 1, 1, 1, 1⟩ none = 1 := by
  constructor
  · intro s k h
    rw [h]
    cases k
    case speculation_language =>
      unfold aggregateWeightedScore
      norm_num [List.foldl, scoreGet, setScore, zeroScores, DEFAULT_WEIGHTS,
        defaultWeightOf, String.reduceEq]
      rw [jsRound10_eq _ 2500000000 (by simp only [String.reduceEq, reduceIte]; norm_num)]
      norm_num
    case causality_language =>
      unfold aggregateWeightedScore
      norm_num [List.foldl, scoreGet, setScore, zeroScores, DEFAULT_WEIGHTS,
        defaultWeightOf, String.reduceEq]
      rw [jsRound10_eq _ 3000000000 (by simp only [String.reduceEq, reduceIte]; norm_num)]
      norm_num
    case pseudo_quantification =>
      unfold aggregateWeightedScore
      norm_num [List.foldl, scoreGet, setScore, zeroScores, DEFAULT_WEIGHTS,
        defaultWeightOf, String.reduceEq]
      rw [jsRound10_eq _ 1500000000 (by simp only [String.reduceEq, reduceIte]; norm_num)]
      norm_num
    case completeness_claim =>
      unfold aggregateWeightedScore
      norm_num [List.foldl, scoreGet, setScore, zeroScores, DEFAULT_WEIGHTS,
        defaultWeightOf, String.reduceEq]
      rw [jsRound10_eq _ 2000000000 (by simp only [String.reduceEq, reduceIte]; norm_num)]
      norm_num
    case fabricated_source =>
      unfold aggregateWeightedScore
      norm_num [List.foldl, scoreGet, setScore, zeroScores, DEFAULT_WEIGHTS,
        defaultWeightOf, String.reduceEq]
      rw [jsRound10_eq _ 1000000000 (by simp only [String.reduceEq, reduceIte]; norm_num)]
      norm_num
  · unfold aggregateWeightedScore
    norm_num [List.foldl, scoreGet, DEFAULT_WEIGHTS, String.reduceEq]
    rw [jsRound10_eq _ 10000000000 (by norm_num)]
    norm_num

/-- C8 witness: the sentence "I think so." sets exactly the speculation
category, and its aggregate score is the speculation default 0.25. -/
theorem aggregateScore_single_and_all_categories_witness :
    aggregateWeightedScore (scoreSentence ("I think so.".data)) none = 1/4 := by
  have h : scoreSentence ("I think so.".data) =
      setScore zeroScores TriggerKind.speculation_language := by
    have hm : findTriggerMatches ("I think so.".data) =
        [⟨TriggerKind.speculation_language, ("i think".data)⟩] := by decide
    simp [scoreSentence, hm, setScore, zeroScores]
  have := aggregateScore_single_and_all_categories.1 ("I think so.".data)
    TriggerKind.speculation_language h
  simpa [defaultWeightOf] using this

/-- C9: the engine is total by construction in this embedding (every
function is a total Lean function), and on the empty string `detect`
(`findTriggerMatches`) returns no matches and `scoreText` returns no
sentence results, whatever weight set is supplied. -/
theorem engine_total_on_empty_input :
    findTriggerMatches ("".data) = [] ∧
      ∀ w : Option Weights, scoreText ("".data) w = [] := by
  constructor
  · decide
  · intro w
    have hs : splitIntoSentences ("".data) = [] := by decide
    simp [scoreText, hs]

/-- C10: trigger-phrase matching is plain substring search: in "This is
unlikely to work." the only speculation phrase present is "likely",
occurring only inside the word "unlikely" (no standalone-word
occurrence), and `findTriggerMatches` still emits the
speculation_language match for it. -/
theorem substring_match_flags_embedded_phrase :
    findTriggerMatches ("This is unlikely to work.".data) =
        [⟨TriggerKind.speculation_language, ("likely".data)⟩] ∧
      standaloneOccurs ("likely".data)
        (scanOf ("This is unlikely to work.".data)).lower = false := by
  refine ⟨?_, ?_⟩ <;> decide

/-- Consuming nothing leaves the previous character unchanged. -/
theorem prevAfter_zero (prev : Option Char) (s : List Char) :
    prevAfter prev s 0 = prev := by
  simp [prevAfter]

/-- Membership in a sequenced matcher splits into memberships of the
two parts. -/
theorem mem_mSeq {a b : Matcher} {prev : Option Char} {s : List Char} {n : Nat} :
    n ∈ mSeq a b prev s ↔
      ∃ n1, n1 ∈ a prev s ∧
        ∃ n2, n2 ∈ b (prevAfter prev s n1) (s.drop n1) ∧ n1 + n2 = n := by
  simp [mSeq]

/-- Membership in a literal matcher. -/
theorem mem_mLit {cs : List Char} {prev : Option Char} {s : List Char} {n : Nat} :
    n ∈ mLit cs prev s ↔ cs.isPrefixOf s = true ∧ n = cs.length := by
  unfold mLit
  split
  · simp [*]
  · simp [*]

/-- Membership in a word-boundary matcher. -/
theorem mem_mWB {prev : Option Char} {s : List Char} {n : Nat} :
    n ∈ mWB prev s ↔ n = 0 ∧ (isWordOpt prev != isWordOpt s.head?) = true := by
  unfold mWB
  split
  · simp [*]
  · simp [*]

/-- Threading the previous-character computation through two
consecutive consumptions. -/
theorem prevAfter_add (prev : Option Char) (s : List Char) (n1 n2 : Nat) :
    prevAfter (prevAfter prev s n1) (s.drop n1) n2 = prevAfter prev s (n1 + n2) := by
  unfold prevAfter
  rcases Nat.eq_zero_or_pos n2 with h2 | h2
  · subst h2
    simp
  · have hne : ¬ n2 = 0 := Nat.pos_iff_ne_zero.mp h2
    have hne2 : ¬ n1 + n2 = 0 := by omega
    simp only [if_neg hne, if_neg hne2, List.getElem?_drop]
    congr 1
    omega

/-- C3 counterexample: "Coverage is 95% now." contains the bare
percentage "95%" in its scan-safe form, yet `findTriggerMatches` emits
no match at all — the claim's unconditional flagging of bare percentage
values fails (the percent sign is followed by a space, not a word
character). -/
theorem bare_percentage_without_word_char_unflagged :
    containsSub ("95%".data) (scanOf ("Coverage is 95% now.".data)).haystack =
        true ∧
      findTriggerMatches ("Coverage is 95% now.".data) = [] := by
  refine ⟨?_, ?_⟩ <;> decide

/-- C3 amended: the percentage matcher flags the first match of
`percentRe` unconditionally (no suppression), but the pattern's
trailing word boundary after `%` forces the character immediately after
the percent sign to be a word character; a percentage followed by
space, punctuation or end of text never matches.  "70%reduction" is
flagged. -/
theorem percent_flag_requires_word_char_after_sign :
    (∀ (prev : Option Char) (s : List Char) (n : Nat), n ∈ percentRe prev s →
        1 ≤ n ∧ s[n - 1]? = some '%' ∧
          ∃ c, s[n]? = some c ∧ isWordChar c = true) ∧
      (∀ (st : ScanText) (i n : Nat), reFirst percentRe st.lower = some (i, n) →
        percentMatches st =
          [⟨TriggerKind.pseudo_quantification, sliceCL st.haystack i (i + n)⟩]) ∧
      findTriggerMatches ("This achieves a 70%reduction in latency.".data) =
        [⟨TriggerKind.pseudo_quantification, ("70%".data)⟩] := by
  refine ⟨?_, ?_, ?_⟩
  · intro prev s n h
    simp only [percentRe, mSeqs, List.foldr] at h
    rw [mem_mSeq] at h
    obtain ⟨a1, ha1, r1, hr1, hsum1⟩ := h
    rw [mem_mWB] at ha1
    obtain ⟨rfl, _⟩ := ha1
    simp only [Nat.zero_add, List.drop_zero] at hr1 hsum1
    rw [mem_mSeq] at hr1
    obtain ⟨a2, _, r2, hr2, hsum2⟩ := hr1
    rw [mem_mSeq] at hr2
    obtain ⟨a3, _, r3, hr3, hsum3⟩ := hr2
    rw [mem_mSeq] at hr3
    obtain ⟨a4, _, r4, hr4, hsum4⟩ := hr3
    rw [mem_mSeq] at hr4
    obtain ⟨a5, ha5, r5, hr5, hsum5⟩ := hr4
    rw [mem_mLit] at ha5
    obtain ⟨hpre, rfl⟩ := ha5
    rw [mem_mSeq] at hr5
    obtain ⟨a6, ha6, r6, hr6, hsum6⟩ := hr5
    rw [mem_mWB] at ha6
    obtain ⟨rfl, hbd⟩ := ha6
    simp only [mEps, List.mem_singleton] at hr6
    subst hr6
    simp only [List.drop_drop, prevAfter_add, prevAfter_zero] at hpre hbd
    rw [List.isPrefixOf_iff_prefix] at hpre
    obtain ⟨t, ht⟩ := hpre
    have hplen : (("%".data).length) = 1 := by decide
    rw [hplen] at hsum5
    rw [hplen] at hbd
    have hK : s[a2 + a3 + a4]? = some '%' := by
      have h0 : (s.drop (a2 + a3 + a4))[0]? = some '%' := by
        rw [← ht]
        simp
      rw [List.getElem?_drop] at h0
      simpa using h0
    have hn : n = a2 + a3 + a4 + 1 := by omega
    refine ⟨by omega, ?_, ?_⟩
    · rw [hn]
      simpa using hK
    · have hprev : prevAfter prev s (a2 + a3 + a4 + 1) = some '%' := by
        unfold prevAfter
        rw [if_neg (by omega)]
        simpa using hK
      rw [hprev] at hbd
      have hw : isWordOpt (some '%') = false := by decide
      rw [hw] at hbd
      rcases hc : (s.drop (a2 + a3 + a4 + 1)).head? with _ | c
      · rw [hc] at hbd
        simp [isWordOpt] at hbd
      · rw [hc] at hbd
        refine ⟨c, ?_, ?_⟩
        · rw [hn]
          rw [List.head?_eq_getElem?, List.getElem?_drop] at hc
          simpa using hc
        · simpa [isWordOpt] using hbd
  · intro st i n h
    simp [percentMatches, h]
  · decide

/-- C3 witness: in "70%x" the percent match consumes 3 characters, the
percent sign sits at index 2, a word character follows, and the match
is emitted with no suppression. -/
theorem percent_flag_requires_word_char_after_sign_witness :
    (1 ≤ 3 ∧ (("70%x".data))[3 - 1]? = some '%' ∧
        ∃ c, (("70%x".data))[3]? = some c ∧ isWordChar c = true) ∧
      percentMatches (scanOf ("70%x".data)) =
        [⟨TriggerKind.pseudo_quantification,
          sliceCL (scanOf ("70%x".data)).haystack 0 (0 + 3)⟩] :=
  ⟨percent_flag_requires_word_char_after_sign.1 none ("70%x".data) 3 (by decide),
    percent_flag_requires_word_char_after_sign.2.1 (scanOf ("70%x".data)) 0 3
      (by decide)⟩

/-- C7 counterexample: in "7/10 tests passed. Rated 8.5/10." the
second `N/10` occurrence ("8.5/10" at index 25) matches the pattern and
satisfies the claim's flagging conditions (`isQualityScore` accepts
it), yet `findTriggerMatches` emits no pseudo_quantification match at
all: only the first occurrence ("7/10", suppressed by the count noun)
is ever examined. -/
theorem nOverTen_second_occurrence_not_examined :
    ((nOverTenRe ((scanOf ("7/10 tests passed. Rated 8.5/10.".data)).lower[24]?)
        ((scanOf ("7/10 tests passed. Rated 8.5/10.".data)).lower.drop 25)).head? =
        some 6) ∧
      isQualityScore (scanOf ("7/10 tests passed. Rated 8.5/10.".data)).haystack
        (("8.5/10".data)) 25 = true ∧
      findTriggerMatches ("7/10 tests passed. Rated 8.5/10.".data) = [] := by
  refine ⟨?_, ?_, ?_⟩ <;> decide

/-- C7 amended: only the first `nOverTenRe` match in the scan-safe text
is examined; it produces a pseudo_quantification match iff its
numerator value is not 10 and (the numerator has a decimal point, or no
count noun follows within the 35-character lookahead) — exactly
`isQualityScore`.  "8.5/10" is flagged; "7/10 tests passed." and
"10/10 requirements met." are not. -/
theorem nOverTen_first_match_quality_rule :
    (∀ (text matchStr : List Char) (matchIndex : Nat),
        isQualityScore text matchStr matchIndex =
          ((!decide (numPrefixVal (matchStr.takeWhile fun c => !(c == '/')) = 10)) &&
            ((matchStr.takeWhile fun c => !(c == '/')).contains '.' ||
              !countNounFollows text matchStr matchIndex))) ∧
      (∀ (st : ScanText) (i n : Nat), reFirst nOverTenRe st.lower = some (i, n) →
        nOverTenMatches st =
          if isQualityScore st.haystack (sliceCL st.haystack i (i + n)) i then
            [⟨TriggerKind.pseudo_quantification, sliceCL st.haystack i (i + n)⟩]
          else []) ∧
      findTriggerMatches ("I would rate this code 8.5/10.".data) =
        [⟨TriggerKind.pseudo_quantification, ("8.5/10".data)⟩] ∧
      findTriggerMatches ("7/10 tests passed.".data) = [] ∧
      findTriggerMatches ("10/10 requirements met.".data) = [] := by
  refine ⟨?_, ?_, ?_, ?_, ?_⟩
  · intro text matchStr matchIndex
    have haux : ∀ l : List Nat, l.head?.isNone = decide (l = []) := by
      intro l
      cases l <;> simp
    unfold isQualityScore countNounFollows
    by_cases h1 : numPrefixVal (matchStr.takeWhile fun c => !(c == '/')) = 10
    · simp [h1]
    · by_cases h2 : (matchStr.takeWhile fun c => !(c == '/')).contains '.'
      · simp [h1, h2, haux]
      · by_cases h3 :
          ((countNounRe none (lowerCL (sliceCL text
            (matchIndex + matchStr.length)
            (matchIndex + matchStr.length + 35)))).head?).isSome
        · simp [h1, h2, h3, haux]
        · simp [h1, h2, h3, haux]
  · intro st i n h
    simp [nOverTenMatches, h]
  · decide
  · decide
  · decide

/-- C7 witness: in "Rated 8.5/10." the first (and only) `N/10` match is
at index 6 with length 6, and the match list is governed by
`isQualityScore` on it. -/
theorem nOverTen_first_match_quality_rule_witness :
    nOverTenMatches (scanOf ("Rated 8.5/10.".data)) =
      if isQualityScore (scanOf ("Rated 8.5/10.".data)).haystack
          (sliceCL (scanOf ("Rated 8.5/10.".data)).haystack 6 (6 + 6)) 6 then
        [⟨TriggerKind.pseudo_quantification,
          sliceCL (scanOf ("Rated 8.5/10.".data)).haystack 6 (6 + 6)⟩]
      else [] :=
  nOverTen_first_match_quality_rule.2.1 (scanOf ("Rated 8.5/10.".data)) 6 6
    (by decide)

/-- C5: for every text containing "should", the should block applies
exactly the claimed precedence (epistemic always flags, even inside a
question; hypothesis, instructional and prescriptive suppress in that
order; else a plain "should be" is flagged at its occurrence unless
inside a question); "Should I do that now?" yields no flags, "It should
be working now." yields the epistemic flag, "The value should be true."
yields none (prescriptive suppression). -/
theorem should_classification_precedence :
    (∀ t : List Char, containsSub ("should".data) (scanOf t).lower = true →
        shouldMatches (scanOf t) = specShouldClassification (scanOf t)) ∧
      findTriggerMatches ("Should I do that now?".data) = [] ∧
      findTriggerMatches ("It should be working now.".data) =
        [⟨TriggerKind.speculation_language, ("should be (epistemic)".data)⟩] ∧
      findTriggerMatches ("The value should be true.".data) = [] := by
  refine ⟨?_, ?_, ?_, ?_⟩
  · intro t h
    unfold shouldMatches specShouldClassification
    rw [h]
    simp
  · decide
  · decide
  · decide

/-- C5 witness: on "It should be working now." the should block agrees
with the claimed precedence chain. -/
theorem should_classification_precedence_witness :
    shouldMatches (scanOf ("It should be working now.".data)) =
      specShouldClassification (scanOf ("It should be working now.".data)) :=
  should_classification_precedence.1 ("It should be working now.".data) (by decide)

/-- C6 counterexample: in "x broke probably because of a. y broke
probably because of b." there are two occurrences of "because", both
outside questions and both with a hedging word immediately before, so
the claim demands a causality match per occurrence; the code emits a
single causality match (the hedged-because test is global and the scan
stops after the first flag). -/
theorem because_two_hedged_occurrences_single_flag :
    (occList ("because".data)
        (scanOf ("x broke probably because of a. y broke probably because of b.".data)).lower
        0 ((scanOf ("x broke probably because of a. y broke probably because of b.".data)).lower.length + 1)) =
        [17, 48] ∧
      ((([17, 48] : List Nat)).all fun i =>
        !isIndexWithinQuestion
            (scanOf ("x broke probably because of a. y broke probably because of b.".data)).haystack i &&
          hedgingWordJustBefore
            (scanOf ("x broke probably because of a. y broke probably because of b.".data)).lower i) = true ∧
      ((findTriggerMatches
          ("x broke probably because of a. y broke probably because of b.".data)).filter
        fun m => m.kind == TriggerKind.causality_language).length = 1 := by
  refine ⟨?_, ?_, ?_⟩ <;> decide

/-- C6 amended: the hedge test is global, not per-occurrence: when the
hedging-word-before-because pattern appears anywhere in the text, the
first occurrence of "because" outside a question yields one single
`because (hedged)` match (regardless of nearby evidence) and the
because scan stops; only when the pattern appears nowhere is each
occurrence outside a question flagged iff the evidence probe finds
nothing in its 150-character window.  The spec's own examples hold:
"The test fails because the mock is wrong." yields exactly one
causality flag on "because", and "The test fails because `error code
127` was returned by the process." yields none. -/
theorem because_scan_hedged_global_else_per_occurrence :
    (∀ (st : ScanText) (occs : List Nat),
        processCausalityOccs st ("because".data) occs =
          specAmendedBecause st occs) ∧
      findTriggerMatches ("The test fails because the mock is wrong.".data) =
        [⟨TriggerKind.causality_language, ("because".data)⟩] ∧
      findTriggerMatches
        ("The test fails because `error code 127` was returned by the process.".data) =
        [] := by
  refine ⟨?_, ?_, ?_⟩
  · intro st occs
    have hns : ((("because".data) : List Char) == ("since".data)) = false := by
      decide
    have hbb : ((("because".data) : List Char) == ("because".data)) = true := by
      decide
    induction occs with
    | nil => simp [processCausalityOccs, specAmendedBecause]
    | cons idx rest ih =>
      by_cases hq : isIndexWithinQuestion st.haystack idx
      · rw [show processCausalityOccs st ("because".data) (idx :: rest) =
            processCausalityOccs st ("because".data) rest from by
          simp only [processCausalityOccs]
          simp [hq]]
        rw [ih]
        unfold specAmendedBecause
        simp [hq]
      · by_cases hH : reTest HEDGED_BECAUSE st.lower
        · rw [show processCausalityOccs st ("because".data) (idx :: rest) =
              [⟨TriggerKind.causality_language, ("because (hedged)".data)⟩] from by
            simp only [processCausalityOccs]
            simp [hq, hns, hbb, hH]]
          unfold specAmendedBecause
          simp [hq, hH]
        · by_cases he : hasEvidenceNearby st.haystack idx st.rawText
          · rw [show processCausalityOccs st ("because".data) (idx :: rest) =
                processCausalityOccs st ("because".data) rest from by
              simp only [processCausalityOccs]
              simp [hq, hns, hbb, hH, he]]
            rw [ih]
            unfold specAmendedBecause
            simp [hq, hH, he]
          · rw [show processCausalityOccs st ("because".data) (idx :: rest) =
                ⟨TriggerKind.causality_language, ("because".data)⟩ ::
                  processCausalityOccs st ("because".data) rest from by
              simp only [processCausalityOccs]
              simp [hq, hns, hbb, hH, he]]
            rw [ih]
            unfold specAmendedBecause
            simp [hq, hH, he]
  · decide
  · decide

/-- Every match the causality phrase loop produces has causality kind. -/
theorem processCausalityOccs_kind (st : ScanText) (phrase : List Char) :
    ∀ (occs : List Nat) (m : TMatch), m ∈ processCausalityOccs st phrase occs →
      m.kind = TriggerKind.causality_language := by
  intro occs
  induction occs with
  | nil =>
    intro m h
    simp [processCausalityOccs] at h
  | cons idx rest ih =>
    intro m h
    simp only [processCausalityOccs] at h
    split_ifs at h <;>
      first
        | exact ih m h
        | (simp only [List.mem_singleton] at h
           subst h
           rfl)
        | (rw [List.mem_cons] at h
           rcases h with rfl | h
           · rfl
           · exact ih m h)

/-- Every match of the causality block has causality kind. -/
theorem causalityMatches_kind (st : ScanText) (m : TMatch)
    (h : m ∈ causalityMatches st) : m.kind = TriggerKind.causality_language := by
  simp only [causalityMatches, List.mem_flatMap] at h
  obtain ⟨p, _, hm⟩ := h
  exact processCausalityOccs_kind st p _ m hm

/-- Every match of the structural causality block has causality kind. -/
theorem structuralCausalityMatches_kind (st : ScanText) (m : TMatch)
    (h : m ∈ structuralCausalityMatches st) :
    m.kind = TriggerKind.causality_language := by
  simp only [structuralCausalityMatches, List.mem_flatMap] at h
  obtain ⟨re, _, hm⟩ := h
  split at hm
  · simp at hm
  · split_ifs at hm <;>
      first
        | (simp only [List.mem_singleton] at hm
           rw [hm])
        | simp at hm

/-- Every match of the `N/10` block has pseudo-quantification kind. -/
theorem nOverTenMatches_kind (st : ScanText) (m : TMatch)
    (h : m ∈ nOverTenMatches st) :
    m.kind = TriggerKind.pseudo_quantification := by
  simp only [nOverTenMatches] at h
  split at h
  · simp at h
  · split_ifs at h <;>
      first
        | (simp only [List.mem_singleton] at h
           rw [h])
        | simp at h

/-- Every match of the percentage block has pseudo-quantification kind. -/
theorem percentMatches_kind (st : ScanText) (m : TMatch)
    (h : m ∈ percentMatches st) :
    m.kind = TriggerKind.pseudo_quantification := by
  simp only [percentMatches] at h
  split at h
  · simp at h
  · simp only [List.mem_singleton] at h
    rw [h]

/-- Every match of the completeness phrase block has completeness kind. -/
theorem completenessPhraseMatches_kind (st : ScanText) (m : TMatch)
    (h : m ∈ completenessPhraseMatches st) :
    m.kind = TriggerKind.completeness_claim := by
  simp only [completenessPhraseMatches, List.mem_flatMap] at h
  obtain ⟨p, _, hm⟩ := h
  split at hm
  · simp at hm
  · simp only [List.mem_singleton] at hm
    rw [hm]

/-- Every match of the structural completeness block has completeness
kind. -/
theorem completenessRegexMatches_kind (st : ScanText) (m : TMatch)
    (h : m ∈ completenessRegexMatches st) :
    m.kind = TriggerKind.completeness_claim := by
  simp only [completenessRegexMatches, List.mem_flatMap] at h
  obtain ⟨re, _, hm⟩ := h
  split at hm
  · simp at hm
  · split_ifs at hm <;>
      first
        | (simp only [List.mem_singleton] at hm
           rw [hm])
        | simp at hm

/-- The should block only ever produces the two `should be` evidences. -/
theorem shouldMatches_evidence (st : ScanText) (m : TMatch)
    (h : m ∈ shouldMatches st) :
    m.evidence = ("should be (epistemic)".data) ∨
      m.evidence = ("should be".data) := by
  unfold shouldMatches at h
  rcases hidx : idxOf ("should be".data) st.lower with _ | i <;>
    rw [hidx] at h <;>
      split_ifs at h <;>
        simp at h <;>
          first
            | (rw [h]; simp)
            | (obtain ⟨-, h2⟩ := h
               rw [h2]
               simp)

/-- A speculation-phrase match sits in the phrase loop exactly when the
phrase's first occurrence exists and is outside a question. -/
theorem specLoop_mem_iff (st : ScanText) (phrase : List Char)
    (hp : phrase ∈ speculationPhrases) :
    (⟨TriggerKind.speculation_language, phrase⟩ ∈ specLoopMatches st) ↔
      ∃ i, idxOf phrase st.lower = some i ∧
        isIndexWithinQuestion st.haystack i = false := by
  constructor
  · intro h
    simp only [specLoopMatches, List.mem_flatMap] at h
    obtain ⟨p, hpmem, hm⟩ := h
    split at hm
    · simp at hm
    · rename_i idx hip
      split_ifs at hm with hqq
      · simp at hm
      · simp only [List.mem_singleton] at hm
        have hpe : phrase = p := congrArg TMatch.evidence hm
        subst hpe
        exact ⟨idx, hip, by simpa using hqq⟩
  · rintro ⟨i, hip, hqq⟩
    simp only [specLoopMatches, List.mem_flatMap]
    refine ⟨phrase, hp, ?_⟩
    rw [hip]
    simp [hqq]

/-- C4 counterexample: in "Is it likely to rain? It is likely broken."
the first occurrence of "likely" (index 6) is inside a question, and a
later occurrence (index 28) is outside any question, yet
`findTriggerMatches` emits no match at all — only each phrase's first
occurrence is examined. -/
theorem speculation_later_occurrence_never_flagged :
    idxOf ("likely".data)
        (scanOf ("Is it likely to rain? It is likely broken.".data)).lower =
        some 6 ∧
      isIndexWithinQuestion
        (scanOf ("Is it likely to rain? It is likely broken.".data)).haystack 6 =
        true ∧
      idxOfFrom ("likely".data)
        (scanOf ("Is it likely to rain? It is likely broken.".data)).lower 7 =
        some 28 ∧
      isIndexWithinQuestion
        (scanOf ("Is it likely to rain? It is likely broken.".data)).haystack 28 =
        false ∧
      findTriggerMatches ("Is it likely to rain? It is likely broken.".data) =
        [] := by
  refine ⟨?_, ?_, ?_, ?_, ?_⟩ <;> decide

/-- C4 amended: for each fixed speculation phrase, only the first
occurrence in the scan-safe text is ever examined: `detect` emits a
speculation_language match for the phrase iff that first occurrence
exists and lies outside a question; later occurrences are never
consulted. -/
theorem speculation_flag_iff_first_occurrence_outside_question :
    ∀ (t phrase : List Char), phrase ∈ speculationPhrases →
      ((⟨TriggerKind.speculation_language, phrase⟩ ∈ findTriggerMatches t) ↔
        ∃ i, idxOf phrase (scanOf t).lower = some i ∧
          isIndexWithinQuestion (scanOf t).haystack i = false) := by
  intro t phrase hp
  have hev : speculationPhrases.all
      (fun p => !(p == ("should be (epistemic)".data)) &&
        !(p == ("should be".data))) = true := by decide
  have hne := List.all_eq_true.mp hev phrase hp
  simp only [Bool.and_eq_true, Bool.not_eq_true', beq_eq_false_iff_ne] at hne
  constructor
  · intro h
    simp only [findTriggerMatches, List.mem_append] at h
    rcases h with ((((((h | h) | h) | h) | h) | h) | h) | h
    · exact (specLoop_mem_iff (scanOf t) phrase hp).mp h
    · rcases shouldMatches_evidence (scanOf t) _ h with he | he
      · exact absurd he hne.1
      · exact absurd he hne.2
    · simpa using causalityMatches_kind (scanOf t) _ h
    · simpa using structuralCausalityMatches_kind (scanOf t) _ h
    · simpa using nOverTenMatches_kind (scanOf t) _ h
    · simpa using percentMatches_kind (scanOf t) _ h
    · simpa using completenessPhraseMatches_kind (scanOf t) _ h
    · simpa using completenessRegexMatches_kind (scanOf t) _ h
  · intro he
    simp only [findTriggerMatches, List.mem_append]
    exact Or.inl (Or.inl (Or.inl (Or.inl (Or.inl (Or.inl (Or.inl
      ((specLoop_mem_iff (scanOf t) phrase hp).mpr he)))))))

/-- C4 witness: "This is probably a race condition." has its first
"probably" at index 8, outside a question, and the match is emitted. -/
theorem speculation_flag_iff_first_occurrence_witness :
    ⟨TriggerKind.speculation_language, ("probably".data)⟩ ∈
      findTriggerMatches ("This is probably a race condition.".data) :=
  (speculation_flag_iff_first_occurrence_outside_question
      ("This is probably a race condition.".data) ("probably".data)
      (by decide)).mpr ⟨8, by decide, by decide⟩
